import Mathlib

/-!
Shallow embedding of `geopy/geocoders/geonames.py` (the GeoNames geocoder
adapter) and proofs about its behaviour.

Modelling conventions:
* Python JSON values appearing in the `lat`/`lng` fields of a place are
  modelled by `JValue` (null, string, or number); Python truthiness of such
  a value is `JValue.truthy`.
* A Python `dict.get(key, None)` on an optional field is modelled by
  `Option.getD · JValue.jnull` (absent key and JSON `null` both behave as
  Python `None` afterwards, exactly as in the source).
* Python exceptions are modelled by `Except PyError`; the constructors
  mirror the exception classes raised by the source
  (`ConfigurationError`, `ValueError`, `GeocoderQueryError`,
  `GeocoderInsufficientPrivileges`, `GeocoderServiceError`).
* `float(x)` on a decimal string is modelled by `parseDecimal`; on a JSON
  number it is the identity.  Coordinates are rationals.
* The HTTP transport, URL percent-encoding and coordinate coercion live in
  external collaborators (`geopy.geocoders.base`, `urllib`), which are out
  of scope per the spec; a request is therefore modelled by the endpoint
  string plus the ordered parameter list the source builds for `urlencode`.
-/

/-- A JSON scalar value as it can appear in a GeoNames place field. -/
inductive JValue where
  | jnull
  | jstr (s : String)
  | jnum (q : ℚ)
deriving DecidableEq

/-- Python truthiness of a `JValue`: `None`, `""` and `0` are falsy. -/
def JValue.truthy : JValue → Bool
  | .jnull => false
  | .jstr s => !s.isEmpty
  | .jnum q => q ≠ 0

/-- `pre` is an initial segment of the second list (model of Python
`str.startswith`, on character lists). -/
def startsWithChars : List Char → List Char → Bool
  | [], _ => true
  | _ :: _, [] => false
  | p :: ps, c :: cs => p == c && startsWithChars ps cs

/-- Python `s.startswith(pre)`. -/
def pyStartsWith (s pre : String) : Bool :=
  startsWithChars pre.toList s.toList

/-- Split a character list on `'.'` (model of `str.split('.')` for the
decimal parser). -/
def splitOnDotChars : List Char → List (List Char)
  | [] => [[]]
  | c :: rest =>
    if c = '.' then [] :: splitOnDotChars rest
    else
      match splitOnDotChars rest with
      | g :: gs => (c :: g) :: gs
      | [] => [[c]]

/-- Read a non-empty run of decimal digits as a natural number. -/
def digitsToNat? (cs : List Char) : Option ℕ :=
  if cs.isEmpty then none
  else
    cs.foldlM
      (fun acc c => if c.isDigit then some (acc * 10 + (c.toNat - 48)) else none) 0

/-- Model of Python `float()` applied to a decimal string: optional sign,
integer part and/or fractional part separated by a dot (exponents and
other exotic float syntax are not used by the GeoNames wire format).
Returns `none` when Python would raise `ValueError`. -/
def parseDecimal (s : String) : Option ℚ :=
  let cs := s.toList
  let sb : ℚ × List Char :=
    match cs with
    | '-' :: rest => (-1, rest)
    | '+' :: rest => (1, rest)
    | _ => (1, cs)
  let sgn := sb.1
  match splitOnDotChars sb.2 with
  | [ip] => (digitsToNat? ip).map (fun n => sgn * n)
  | [ip, fp] =>
    if ip.isEmpty && fp.isEmpty then none
    else
      let ipv : Option ℚ :=
        if ip.isEmpty then some 0 else (digitsToNat? ip).map (fun n => (n : ℚ))
      let fpv : Option ℚ :=
        if fp.isEmpty then some 0
        else (digitsToNat? fp).map (fun n => (n : ℚ) / (10 : ℚ) ^ fp.length)
      match ipv, fpv with
      | some a, some b => some (sgn * (a + b))
      | _, _ => none
  | _ => none

/-- Model of Python `float()` on a `JValue` (`none` = `ValueError`/`TypeError`). -/
def JValue.pyFloat : JValue → Option ℚ
  | .jnull => none
  | .jstr s => parseDecimal s
  | .jnum q => some q

/-- Wire entity: one element of the `geonames` array of a response.
Only the fields the source reads are modelled; each is optional
(absent key = `none`).  The name-like fields are JSON strings. -/
structure Place where
  lat : Option JValue := none
  lng : Option JValue := none
  name : Option String := none
  adminName1 : Option String := none
  countryName : Option String := none
deriving DecidableEq

/-- The `status` object of a response: its optional `message` field, plus a
flag recording whether the dict has any other keys (which only matters for
Python truthiness of the dict in `if err and 'message' in err`). -/
structure Status where
  message : Option String := none
  hasOtherKeys : Bool := false
deriving DecidableEq

/-- Python truthiness of the `status` dict: truthy iff non-empty. -/
def Status.truthy (st : Status) : Bool :=
  st.message.isSome || st.hasOtherKeys

/-- A parsed JSON response body: optional `geonames` array and optional
`status` object. -/
structure GeoDoc where
  geonames : Option (List Place) := none
  status : Option Status := none
deriving DecidableEq

/-- The Python exceptions raised by the module. -/
inductive PyError where
  | configurationError (msg : String)
  | valueError (msg : String)
  | geocoderQueryError (msg : String)
  | geocoderInsufficientPrivileges (msg : String)
  | geocoderServiceError (msg : String)
deriving DecidableEq

/-- `geopy.location.Location`: display label, coordinate pair, raw place. -/
structure Location where
  address : String
  latitude : ℚ
  longitude : ℚ
  raw : Place
deriving DecidableEq

/-- The value returned by `_parse_json` (hence by `geocode`/`reverse`):
Python `None`, a single `Location`, or a list whose elements are
`Location` or `None`. -/
inductive PyRet where
  | pynone
  | loc (l : Location)
  | locList (ls : List (Option Location))
deriving DecidableEq

/-- The inner `parse_code(place)` of `GeoNames._parse_json`: extract
`lat`/`lng` with Python-truthiness check, convert with `float()`, build the
comma-joined label from the truthy members of
`[name, adminName1, countryName]`. -/
def parse_code (place : Place) : Except PyError (Option Location) :=
  let latitude := place.lat.getD .jnull
  let longitude := place.lng.getD .jnull
  if latitude.truthy && longitude.truthy then
    match latitude.pyFloat, longitude.pyFloat with
    | some la, some lo =>
      let placename := place.name
      let state := place.adminName1
      let country := place.countryName
      let location := String.intercalate ", "
        (([placename, state, country]).filterMap
          (fun x => match x with
            | some s => if s.isEmpty then none else some s
            | none => none))
      .ok (some { address := location, latitude := la, longitude := lo, raw := place })
    | _, _ => .error (.valueError "could not convert string to float")
  else
    .ok none

/-- Left-to-right effectful map over a list, propagating the first
exception: the Python list comprehension `[parse_code(p) for p in places]`. -/
def mapExcept (f : α → Except ε β) : List α → Except ε (List β)
  | [] => .ok []
  | a :: as =>
    match f a with
    | .error e => .error e
    | .ok b =>
      match mapExcept f as with
      | .error e => .error e
      | .ok bs => .ok (b :: bs)

/-- The status check at the top of `_parse_json`:
`if err and 'message' in err: raise ...`.  Returns the exception to raise,
if any. -/
def statusError : Option Status → Option PyError
  | none => none
  | some err =>
    if err.truthy then
      match err.message with
      | some msg =>
        some (if pyStartsWith msg "user account not enabled to use"
              then .geocoderInsufficientPrivileges msg
              else .geocoderServiceError msg)
      | none => none
    else none

/-- `GeoNames._parse_json(doc, exactly_one)`. -/
def parse_json (doc : GeoDoc) (exactly_one : Bool) : Except PyError PyRet :=
  let places := doc.geonames.getD []
  match statusError doc.status with
  | some e => .error e
  | none =>
    match places with
    | [] => .ok .pynone
    | p :: _ =>
      if exactly_one then
        match parse_code p with
        | .error e => .error e
        | .ok none => .ok .pynone
        | .ok (some l) => .ok (.loc l)
      else
        match mapExcept parse_code places with
        | .error e => .error e
        | .ok rs => .ok (.locList rs)

/-- The adapter's state after a successful `__init__`: credential, bias,
scheme, and the four endpoint URLs derived once at construction.  The
generic transport options (timeout, proxies, user agent, TLS context,
format string) are forwarded to the external base class and not modelled. -/
structure GeoNames where
  username : String
  country_bias : Option String
  scheme : String
  api : String
  api_reverse : String
  api_reverse_nearby : String
  api_timezone : String
deriving DecidableEq

/-- `GeoNames.__init__`: raises `ConfigurationError` when `username is None`,
then derives the four endpoint URLs from the scheme and the fixed domain. -/
def GeoNames.init (country_bias : Option String) (username : Option String)
    (scheme : String := "http") : Except PyError GeoNames :=
  match username with
  | none =>
    .error (.configurationError
      ("No username given, required for api access.  If you do not " ++
       "have a GeoNames username, sign up here: " ++
       "http://www.geonames.org/login"))
  | some u =>
    let domain := "api.geonames.org"
    .ok {
      username := u
      country_bias := country_bias
      scheme := scheme
      api := scheme ++ "://" ++ domain ++ "/searchJSON"
      api_reverse := scheme ++ "://" ++ domain ++ "/findNearbyPlaceNameJSON"
      api_reverse_nearby := scheme ++ "://" ++ domain ++ "/findNearbyJSON"
      api_timezone := scheme ++ "://" ++ domain ++ "/timezoneJSON" }

/-- Python truthiness of an optional string argument (`if feature_code:`,
`if lang:`): truthy iff present and non-empty. -/
def pyTruthyOptStr : Option String → Bool
  | none => false
  | some s => !s.isEmpty

/-- `GeoNames._reverse_find_nearby_params`: `lat`, `lng`, `username`,
plus `featureCode` when truthy, in insertion order. -/
def GeoNames.reverseFindNearbyParams (g : GeoNames) (lat lng : String)
    (feature_code : Option String) : List (String × String) :=
  let params := [("lat", lat), ("lng", lng), ("username", g.username)]
  if pyTruthyOptStr feature_code then
    params ++ [("featureCode", feature_code.getD "")]
  else params

/-- `GeoNames._reverse_find_nearby_place_name_params`: `lat`, `lng`,
`username`, plus `lang` when truthy, in insertion order. -/
def GeoNames.reverseFindNearbyPlaceNameParams (g : GeoNames) (lat lng : String)
    (lang : Option String) : List (String × String) :=
  let params := [("lat", lat), ("lng", lng), ("username", g.username)]
  if pyTruthyOptStr lang then
    params ++ [("lang", lang.getD "")]
  else params

/-- The request `GeoNames.reverse` is about to issue: endpoint URL, the
ordered parameter list handed to `urlencode`, and the resolved
`exactly_one` flag applied to the response. -/
structure ReverseRequest where
  endpoint : String
  params : List (String × String)
  exactly_one : Bool
deriving DecidableEq

/-- The pre-request logic of `GeoNames.reverse` after coordinate coercion
(which lives in the external base class): resolve the `exactly_one`
sentinel — emitting the `DeprecationWarning` recorded in the first
component — then select the endpoint mode.  `exactly_one = none` models
the caller not supplying the argument (`DEFAULT_SENTINEL`). -/
def GeoNames.reverse (g : GeoNames) (lat lng : String) (exactly_one : Option Bool)
    (feature_code : Option String) (lang : Option String)
    (find_nearby_type : String := "findNearbyPlaceName") :
    Bool × Except PyError ReverseRequest :=
  let warned := exactly_one.isNone
  let eo := exactly_one.getD false
  let result : Except PyError ReverseRequest :=
    if find_nearby_type = "findNearbyPlaceName" then
      if pyTruthyOptStr feature_code then
        .error (.valueError
          ("find_nearby_type=findNearbyPlaceName doesn't support " ++
           "the `feature_code` param"))
      else
        .ok ⟨g.api_reverse, g.reverseFindNearbyPlaceNameParams lat lng lang, eo⟩
    else if find_nearby_type = "findNearby" then
      if pyTruthyOptStr lang then
        .error (.valueError
          "find_nearby_type=findNearby doesn't support the `lang` param")
      else
        .ok ⟨g.api_reverse_nearby, g.reverseFindNearbyParams lat lng feature_code, eo⟩
    else
      .error (.geocoderQueryError
        ("`" ++ find_nearby_type ++ "` find_nearby_type is not supported by geopy"))
  (warned, result)

/-- The response-mapping step of `GeoNames.geocode`: the body returned by
the transport collaborator is handed to `_parse_json` with the call's
`exactly_one` flag. -/
def GeoNames.geocodeResult (_g : GeoNames) (exactly_one : Bool)
    (doc : GeoDoc) : Except PyError PyRet :=
  parse_json doc exactly_one

/-- The response-mapping step of `GeoNames.reverse`: identical to
`geocode`'s, with the `exactly_one` flag resolved by `GeoNames.reverse`. -/
def GeoNames.reverseResult (_g : GeoNames) (exactly_one : Bool)
    (doc : GeoDoc) : Except PyError PyRet :=
  parse_json doc exactly_one

/-- The Python-truthiness test on a place's coordinates that decides
whether `parse_code` retains it (`if latitude and longitude:`). -/
def coordsTruthy (place : Place) : Bool :=
  (place.lat.getD .jnull).truthy && (place.lng.getD .jnull).truthy

instance [DecidableEq ε] [DecidableEq α] : DecidableEq (Except ε α) := fun x y =>
  match x, y with
  | .ok a, .ok b => if h : a = b then .isTrue (by rw [h]) else .isFalse (by simp [h])
  | .error e, .error f => if h : e = f then .isTrue (by rw [h]) else .isFalse (by simp [h])
  | .ok _, .error _ => .isFalse (by simp)
  | .error _, .ok _ => .isFalse (by simp)

set_option maxRecDepth 10000

/-- The label the spec prescribes for a retained place: the non-empty
members of `[name, adminName1, countryName]` joined with `", "`. -/
def specLabel (place : Place) : String :=
  String.intercalate ", "
    ((([place.name, place.adminName1, place.countryName]).filterMap id).filter
      (fun s => !s.isEmpty))

/-- Concrete test fixtures used by witnesses and counterexamples. -/
def placeBerlin : Place :=
  { lat := some (.jnum 52), lng := some (.jnum 13),
    name := some "Berlin", adminName1 := some "Berlin", countryName := some "Germany" }

def locBerlin : Location :=
  { address := "Berlin, Berlin, Germany", latitude := 52, longitude := 13,
    raw := placeBerlin }

def placeNoCoords : Place :=
  { name := some "Atlantis" }

def docMixed : GeoDoc :=
  { geonames := some [placeNoCoords, placeBerlin] }

def gDemo : GeoNames :=
  { username := "demo", country_bias := none, scheme := "http",
    api := "http://api.geonames.org/searchJSON",
    api_reverse := "http://api.geonames.org/findNearbyPlaceNameJSON",
    api_reverse_nearby := "http://api.geonames.org/findNearbyJSON",
    api_timezone := "http://api.geonames.org/timezoneJSON" }

/-- A place on the equator: `lat` present as the JSON number 0. -/
def placeEquator : Place :=
  { lat := some (.jnum 0), lng := some (.jnum 13), name := some "Gulf of Guinea" }

/-! ## Helper lemmas -/

theorem parse_code_of_not_coordsTruthy (place : Place)
    (h : coordsTruthy place = false) : parse_code place = .ok none := by
  unfold coordsTruthy at h
  unfold parse_code
  simp only [h]
  simp

theorem parse_code_ok_none_iff (place : Place) (o : Option Location)
    (h : parse_code place = .ok o) :
    (o = none ↔ coordsTruthy place = false) := by
  unfold parse_code at h
  unfold coordsTruthy
  dsimp only at h
  split at h
  · split at h
    · cases h
      simp_all
    · simp_all
  · simp_all

theorem mapExcept_ok_length (f : α → Except ε β) (l : List α) (r : List β)
    (h : mapExcept f l = .ok r) : r.length = l.length := by
  induction l generalizing r with
  | nil => simp only [mapExcept] at h; cases h; rfl
  | cons a as ih =>
    simp only [mapExcept] at h
    cases hfa : f a with
    | error e => rw [hfa] at h; cases h
    | ok b =>
      rw [hfa] at h
      cases hrec : mapExcept f as with
      | error e => rw [hrec] at h; cases h
      | ok bs =>
        rw [hrec] at h
        cases h
        simp [ih bs hrec]

theorem mapExcept_ok_get (f : α → Except ε β) (l : List α) (r : List β)
    (h : mapExcept f l = .ok r) :
    ∀ i (hl : i < l.length) (hr : i < r.length),
      f (l.get ⟨i, hl⟩) = .ok (r.get ⟨i, hr⟩) := by
  induction l generalizing r with
  | nil => intro i hl hr; simp at hl
  | cons a as ih =>
    simp only [mapExcept] at h
    cases hfa : f a with
    | error e => rw [hfa] at h; cases h
    | ok b =>
      rw [hfa] at h
      cases hrec : mapExcept f as with
      | error e => rw [hrec] at h; cases h
      | ok bs =>
        rw [hrec] at h
        cases h
        intro i hl hr
        cases i with
        | zero => simpa using hfa
        | succ n =>
          exact ih bs hrec n (by simpa using hl) (by simpa using hr)

theorem statusError_eq_none (st : Option Status)
    (h : st.bind Status.message = none) : statusError st = none := by
  cases st with
  | none => rfl
  | some s =>
    simp only [Option.bind] at h
    unfold statusError
    simp [Status.truthy, h]

theorem parse_json_first_invalid_aux (doc : GeoDoc) (p : Place) (rest : List Place)
    (hg : doc.geonames.getD [] = p :: rest)
    (hs : statusError doc.status = none)
    (hp : coordsTruthy p = false) :
    parse_json doc true = .ok .pynone := by
  unfold parse_json
  rw [hs, hg]
  simp [parse_code_of_not_coordsTruthy p hp]


theorem filterMap_truthy_eq (xs : List (Option String)) :
    xs.filterMap (fun x => match x with
      | some s => if s.isEmpty then none else some s
      | none => none) =
    (xs.filterMap id).filter (fun s => !s.isEmpty) := by
  induction xs with
  | nil => rfl
  | cons x xs ih =>
    cases x with
    | none => simpa using ih
    | some s =>
      by_cases hs : s.isEmpty = true
      · simp [List.filterMap_cons, List.filter_cons, hs, ih]
      · simp [List.filterMap_cons, List.filter_cons, hs, ih]


/-! ## Claim theorems -/

/-- C1 (counterexample): constructing the adapter with `username=""` (the
empty string) does not raise `ConfigurationError` — construction succeeds,
because the source only checks `username is None`.  This refutes the claim
that construction with an empty username fails. -/
theorem geonames_init_empty_username_accepted :
    GeoNames.init none (some "") "http" =
      .ok { username := "", country_bias := none, scheme := "http",
            api := "http://api.geonames.org/searchJSON",
            api_reverse := "http://api.geonames.org/findNearbyPlaceNameJSON",
            api_reverse_nearby := "http://api.geonames.org/findNearbyJSON",
            api_timezone := "http://api.geonames.org/timezoneJSON" } := by
  decide

/-- C1 (amended): construction fails with `ConfigurationError` exactly when
the username is absent (`None`); any supplied string — the empty string
included — is accepted and stored as the adapter's username. -/
theorem geonames_init_username_none_check (cb : Option String) (sch : String) :
    (GeoNames.init cb none sch =
      .error (.configurationError
        ("No username given, required for api access.  If you do not " ++
         "have a GeoNames username, sign up here: " ++
         "http://www.geonames.org/login"))) ∧
    ∀ u : String, ∃ g : GeoNames,
      GeoNames.init cb (some u) sch = .ok g ∧ g.username = u := by
  exact ⟨rfl, fun u => ⟨_, rfl, rfl⟩⟩

/-- C2 (counterexample): in non-exactlyOne mode a place with missing
coordinates is not dropped from the returned sequence: the response with
places `[Atlantis (no coordinates), Berlin]` parses to a two-element list
whose first entry is a `None` placeholder. -/
theorem parse_json_list_has_placeholder :
    parse_json docMixed false = .ok (.locList [none, some locBerlin]) := by
  decide

/-- C2 (amended): in non-exactlyOne mode the returned list has exactly one
entry per place in server order; a place whose `lat` or `lng` is missing or
falsy yields a `None` placeholder entry at its position (it is not dropped),
and every other entry is a parsed `Location`. -/
theorem parse_json_list_keeps_placeholders (doc : GeoDoc) (l : List (Option Location))
    (h : parse_json doc false = .ok (.locList l)) :
    l.length = (doc.geonames.getD []).length ∧
    ∀ i (hi : i < l.length) (hg : i < (doc.geonames.getD []).length),
      (l.get ⟨i, hi⟩ = none ↔
        coordsTruthy ((doc.geonames.getD []).get ⟨i, hg⟩) = false) := by
  unfold parse_json at h
  dsimp only at h
  cases hse : statusError doc.status with
  | some e => rw [hse] at h; simp at h
  | none =>
    rw [hse] at h
    cases hps : doc.geonames.getD [] with
    | nil => rw [hps] at h; simp at h
    | cons p rest =>
      rw [hps] at h
      dsimp only at h
      cases hm : mapExcept parse_code (p :: rest) with
      | error e => rw [hm] at h; simp at h
      | ok rs =>
        rw [hm] at h
        simp at h
        subst h
        refine ⟨mapExcept_ok_length _ _ _ hm, ?_⟩
        intro i hi hg
        have hpc := mapExcept_ok_get _ _ _ hm i hg hi
        exact parse_code_ok_none_iff _ _ hpc

/-- C2 (amended, witness): instantiated on the two-place fixture: the list
is as long as the places array and its first entry is `None` exactly
because the first place's coordinates are not truthy. -/
theorem parse_json_list_keeps_placeholders_witness :
    (([none, some locBerlin] : List (Option Location)).length =
      (docMixed.geonames.getD []).length) ∧
    (([none, some locBerlin] : List (Option Location)).get ⟨0, by decide⟩ = none ↔
      coordsTruthy ((docMixed.geonames.getD []).get ⟨0, by decide⟩) = false) :=
  ⟨(parse_json_list_keeps_placeholders docMixed [none, some locBerlin] (by decide)).1,
   (parse_json_list_keeps_placeholders docMixed [none, some locBerlin] (by decide)).2
      0 (by decide) (by decide)⟩

/-- C3: in exactlyOne mode, when the places array is non-empty and its
first place has a missing or falsy `lat` or `lng`, the caller receives
Python `None` — a later valid place is never re-selected, whatever the
tail of the array contains. -/
theorem parse_json_exactly_one_first_invalid (doc : GeoDoc) (p : Place)
    (rest : List Place)
    (hg : doc.geonames.getD [] = p :: rest)
    (hm : doc.status.bind Status.message = none)
    (hp : coordsTruthy p = false) :
    parse_json doc true = .ok .pynone :=
  parse_json_first_invalid_aux doc p rest hg (statusError_eq_none _ hm) hp

/-- C3 (witness): the fixture response whose first place lacks coordinates
and whose second place is a fully valid Berlin place parses to `None` in
exactlyOne mode. -/
theorem parse_json_exactly_one_first_invalid_witness :
    parse_json docMixed true = .ok .pynone :=
  parse_json_exactly_one_first_invalid docMixed placeNoCoords [placeBerlin]
    (by decide) (by decide) (by decide)

/-- C4: whenever the response's `status` object carries a `message`,
parsing raises before any place is examined — with
`GeocoderInsufficientPrivileges` when the message starts with
"user account not enabled to use", and with `GeocoderServiceError`
otherwise; this holds for both values of `exactly_one`, so no results are
ever produced alongside a status message. -/
theorem parse_json_status_message (doc : GeoDoc) (st : Status) (msg : String)
    (exactly_one : Bool)
    (h1 : doc.status = some st) (h2 : st.message = some msg) :
    parse_json doc exactly_one =
      .error (if pyStartsWith msg "user account not enabled to use"
              then .geocoderInsufficientPrivileges msg
              else .geocoderServiceError msg) := by
  unfold parse_json
  dsimp only
  rw [h1]
  unfold statusError
  simp [Status.truthy, h2]

/-- C4 (witness): one concrete response per branch — a privilege message
maps to `GeocoderInsufficientPrivileges`, any other message to
`GeocoderServiceError`; both with an (ignored) non-empty places array. -/
theorem parse_json_status_message_witness :
    (parse_json { geonames := some [placeBerlin],
                  status := some { message := some "user account not enabled to use the commercial service" } }
        true =
      .error (.geocoderInsufficientPrivileges
        "user account not enabled to use the commercial service")) ∧
    (parse_json { geonames := some [placeBerlin],
                  status := some { message := some "hourly limit of 1000 credits exceeded" } }
        false =
      .error (.geocoderServiceError "hourly limit of 1000 credits exceeded")) := by
  constructor
  · rw [parse_json_status_message _
      { message := some "user account not enabled to use the commercial service" }
      "user account not enabled to use the commercial service" true rfl rfl]
    decide
  · rw [parse_json_status_message _
      { message := some "hourly limit of 1000 credits exceeded" }
      "hourly limit of 1000 credits exceeded" false rfl rfl]
    decide

/-- C5: a response whose places array is empty or absent and which carries
no status message makes both `geocode` and `reverse` return Python `None`,
for either value of `exactly_one`. -/
theorem empty_places_returns_none (g : GeoNames) (doc : GeoDoc)
    (exactly_one : Bool)
    (hg : doc.geonames.getD [] = [])
    (hm : doc.status.bind Status.message = none) :
    g.geocodeResult exactly_one doc = .ok .pynone ∧
    g.reverseResult exactly_one doc = .ok .pynone := by
  have hs := statusError_eq_none doc.status hm
  have hp : parse_json doc exactly_one = .ok .pynone := by
    unfold parse_json
    rw [hs, hg]
  exact ⟨hp, hp⟩

/-- C5 (witness): instantiated on a response with an explicitly empty
places array and on one with the `geonames` key absent, for both values of
`exactly_one`. -/
theorem empty_places_returns_none_witness :
    (gDemo.geocodeResult true { geonames := some [] } = .ok .pynone) ∧
    (gDemo.reverseResult false { geonames := none } = .ok .pynone) :=
  ⟨(empty_places_returns_none gDemo { geonames := some [] } true rfl rfl).1,
   (empty_places_returns_none gDemo { geonames := none } false rfl rfl).2⟩

/-- C6: when the caller of `reverse` does not supply `exactly_one`
(modelled by the `DEFAULT_SENTINEL` value `none`), the adapter emits the
deprecation warning and behaves exactly as if `exactly_one=False` had been
passed; a caller who does supply the argument gets no warning. -/
theorem reverse_default_exactly_one (g : GeoNames) (lat lng : String)
    (feature_code lang : Option String) (fnt : String) (b : Bool) :
    (g.reverse lat lng none feature_code lang fnt).1 = true ∧
    (g.reverse lat lng none feature_code lang fnt).2 =
      (g.reverse lat lng (some false) feature_code lang fnt).2 ∧
    (g.reverse lat lng (some b) feature_code lang fnt).1 = false :=
  ⟨rfl, rfl, rfl⟩

/-- C7: supplying a (non-empty) `feature_code` together with the default
mode `findNearbyPlaceName` raises `ValueError`, whatever `lang` is; and
supplying a (non-empty) `lang` together with mode `findNearby` raises
`ValueError`, whatever `feature_code` is.  In both cases the result is the
exception — no request (endpoint/parameter list) is ever built.  An empty
string is falsy in Python and is treated by the source as not supplied. -/
theorem reverse_incompatible_params (g : GeoNames) (lat lng : String)
    (eo : Option Bool) (s t : String) (hs : s ≠ "") (ht : t ≠ "") :
    (∀ lang, (g.reverse lat lng eo (some s) lang "findNearbyPlaceName").2 =
      .error (.valueError
        ("find_nearby_type=findNearbyPlaceName doesn't support " ++
         "the `feature_code` param"))) ∧
    (∀ fc, (g.reverse lat lng eo fc (some t) "findNearby").2 =
      .error (.valueError
        "find_nearby_type=findNearby doesn't support the `lang` param")) := by
  constructor
  · intro lang
    have hfe : pyTruthyOptStr (some s) = true := by
      simp only [pyTruthyOptStr, Bool.not_eq_true']
      cases hval : s.isEmpty
      · rfl
      · exact absurd ((String.isEmpty_iff s).mp hval) hs
    simp [GeoNames.reverse, hfe]
  · intro fc
    have hle : pyTruthyOptStr (some t) = true := by
      simp only [pyTruthyOptStr, Bool.not_eq_true']
      cases hval : t.isEmpty
      · rfl
      · exact absurd ((String.isEmpty_iff t).mp hval) ht
    simp [GeoNames.reverse, hle]

/-- C7 (witness): instantiated with `feature_code="PPL"` against the
default mode and with `lang="de"` against `findNearby`. -/
theorem reverse_incompatible_params_witness :
    ((gDemo.reverse "52" "13" (some true) (some "PPL") none "findNearbyPlaceName").2 =
      .error (.valueError
        ("find_nearby_type=findNearbyPlaceName doesn't support " ++
         "the `feature_code` param"))) ∧
    ((gDemo.reverse "52" "13" (some true) none (some "de") "findNearby").2 =
      .error (.valueError
        "find_nearby_type=findNearby doesn't support the `lang` param")) :=
  ⟨(reverse_incompatible_params gDemo "52" "13" (some true) "PPL" "de"
      (by decide) (by decide)).1 none,
   (reverse_incompatible_params gDemo "52" "13" (some true) "PPL" "de"
      (by decide) (by decide)).2 none⟩

/-- C8: any `find_nearby_type` other than `findNearbyPlaceName` and
`findNearby` makes `reverse` raise `GeocoderQueryError` whose message
embeds the unsupported mode value; no request is built. -/
theorem reverse_unsupported_mode (g : GeoNames) (lat lng : String)
    (eo : Option Bool) (fc lang : Option String) (fnt : String)
    (h1 : fnt ≠ "findNearbyPlaceName") (h2 : fnt ≠ "findNearby") :
    (g.reverse lat lng eo fc lang fnt).2 =
      .error (.geocoderQueryError
        ("`" ++ fnt ++ "` find_nearby_type is not supported by geopy")) := by
  simp [GeoNames.reverse, h1, h2]

/-- C8 (witness): `find_nearby_type="unknown"` fails with a
`GeocoderQueryError` naming "unknown". -/
theorem reverse_unsupported_mode_witness :
    (gDemo.reverse "52" "13" (some false) none none "unknown").2 =
      .error (.geocoderQueryError
        "`unknown` find_nearby_type is not supported by geopy") := by
  rw [reverse_unsupported_mode gDemo "52" "13" (some false) none none "unknown"
    (by decide) (by decide)]
  decide

/-- C9: every retained place's label is the non-empty members of
`[name, adminName1, countryName]` joined with `", "` — absent or empty
parts are skipped, with no stray separators. -/
theorem parse_code_label (place : Place) (l : Location)
    (h : parse_code place = .ok (some l)) :
    l.address = specLabel place := by
  unfold parse_code at h
  dsimp only at h
  split at h
  · split at h
    · simp only [Except.ok.injEq, Option.some.injEq] at h
      subst h
      unfold specLabel
      dsimp only
      rw [filterMap_truthy_eq]
    · simp at h
  · simp at h

/-- C9 (witness): the Berlin fixture parses to a `Location` whose label is
"Berlin, Berlin, Germany", as `specLabel` prescribes. -/
theorem parse_code_label_witness :
    parse_code placeBerlin = .ok (some locBerlin) ∧
    locBerlin.address = specLabel placeBerlin :=
  ⟨by decide, parse_code_label placeBerlin locBerlin (by decide)⟩

/-- C10: a place whose `lat` or `lng` is present but falsy — e.g. the JSON
number 0, a coordinate exactly on the equator or prime meridian — is
treated exactly like a place with a missing coordinate: `parse_code` maps
it to `None` (so it yields no `LocationResult`, and `None` in exactlyOne
mode when it is the first place), even though 0 is a valid coordinate. -/
theorem parse_code_falsy_coordinate (place : Place) (v : JValue)
    (h : place.lat = some v ∨ place.lng = some v) (hv : v.truthy = false) :
    parse_code place = .ok none ∧
    parse_code place = parse_code { place with lat := none, lng := none } ∧
    ∀ (doc : GeoDoc) (rest : List Place),
      doc.geonames.getD [] = place :: rest →
      doc.status.bind Status.message = none →
      parse_json doc true = .ok .pynone := by
  have hct : coordsTruthy place = false := by
    cases h with
    | inl hl => simp [coordsTruthy, hl, hv]
    | inr hr => simp [coordsTruthy, hr, hv]
  have hmissing : coordsTruthy { place with lat := none, lng := none } = false := by
    simp [coordsTruthy, JValue.truthy]
  refine ⟨parse_code_of_not_coordsTruthy place hct, ?_, ?_⟩
  · rw [parse_code_of_not_coordsTruthy place hct,
        parse_code_of_not_coordsTruthy _ hmissing]
  · intro doc rest hg hm
    exact parse_json_first_invalid_aux doc place rest hg
      (statusError_eq_none _ hm) hct


/-- C10 (witness): a place at latitude 0 (JSON number) with a valid
longitude yields no result, and in exactlyOne mode the response whose only
place it is parses to `None`. -/
theorem parse_code_falsy_coordinate_witness :
    parse_code placeEquator = .ok none ∧
    parse_json { geonames := some [placeEquator] } true = .ok .pynone :=
  ⟨(parse_code_falsy_coordinate placeEquator (.jnum 0) (Or.inl rfl) (by decide)).1,
   (parse_code_falsy_coordinate placeEquator (.jnum 0) (Or.inl rfl)
      (by decide)).2.2 _ [] rfl rfl⟩
